import Mathlib

/-
Shallow embedding of the resolver catalog of the gql-error mock GraphQL
server (src/index.ts).  The server's only component with design intent is
the map `resolvers.Query`: nine operations, each deterministically
producing one simulated outcome (a returned or thrown GraphQLError, a
delayed thrown GraphQLError, a returned TypeError, a thrown plain Error,
or a deliberately malformed success payload).  Each resolver below is a
direct transcription of the corresponding arrow function in the source;
JavaScript truthiness on the optional integer arguments is made explicit.
-/

-- JavaScript truthiness test `!x` on an optional integer argument:
-- true exactly when the argument is absent (undefined/null) or equal to 0
-- (the only falsy integer values a GraphQL Int argument can take).
def jsFalsyInt : Option Int → Bool
  | none => true
  | some n => n == 0

-- JavaScript `x || d` on an optional integer: yields `d` when `x` is
-- falsy (absent or 0) and the value of `x` otherwise.
def jsOr (x : Option Int) (d : Int) : Int :=
  match x with
  | none => d
  | some n => if n == 0 then d else n

-- The `http: { status: ... }` object inside GraphQLError extensions,
-- carrying a transport-level HTTP status code.
structure HttpExt where
  status : Int
  deriving Repr, DecidableEq

-- The `extensions` object of a GraphQLError: an optional machine-readable
-- code string and an optional transport-level http status.
structure Extensions where
  code : Option String
  http : Option HttpExt
  deriving Repr, DecidableEq

-- A GraphQLError as constructed in src/index.ts: a message, an
-- `extensions` object, and an optional wrapped original error (recorded
-- here by its message).
structure GraphQLError where
  message : String
  extensions : Extensions
  originalError : Option String
  deriving Repr, DecidableEq

-- The schema type `Body { value: String, code: Int }`.
structure Body where
  value : String
  code : Int
  deriving Repr, DecidableEq

-- The schema type `AntiPatternResponse { body: Body, errors: [Int] }`;
-- `errors := none` models the resolver returning `errors: null` where the
-- schema declares a list of integers.
structure AntiPatternResponse where
  body : Body
  errors : Option (List Int)
  deriving Repr, DecidableEq

-- What a single resolver invocation produces, distinguishing returned
-- from thrown errors and recording the suspension (in milliseconds)
-- before a delayed throw.
inductive ResolverOutcome where
  | returnedGraphQLError (e : GraphQLError)
  | thrownGraphQLError (e : GraphQLError)
  | delayedThrownGraphQLError (delayMs : Int) (e : GraphQLError)
  | returnedTypeError (message : String)
  | thrownError (message : String)
  | returnedPayload (p : AntiPatternResponse)
  deriving Repr, DecidableEq

-- String constants of `ApolloServerErrorCode` from the external
-- `@apollo/server/errors` library: each documented member is the string
-- equal to its own name.
namespace ApolloServerErrorCode

def BAD_USER_INPUT : String := "BAD_USER_INPUT"

def BAD_REQUEST : String := "BAD_REQUEST"

def INTERNAL_SERVER_ERROR : String := "INTERNAL_SERVER_ERROR"

end ApolloServerErrorCode

namespace Query

-- `notFound`: returns (not throws) a GraphQLError with code NOT_FOUND,
-- wrapping an original `Error("not found")`.
def notFound : ResolverOutcome :=
  .returnedGraphQLError
    { message := "Not found - error occured"
      extensions := { code := some "NOT_FOUND", http := none }
      originalError := some "not found" }

-- `authenticationFail`: returns a GraphQLError with code FORBIDDEN.
def authenticationFail : ResolverOutcome :=
  .returnedGraphQLError
    { message := "You are not authorized to perform this action."
      extensions := { code := some "FORBIDDEN", http := none }
      originalError := none }

-- `givenCode(code: Int!)`: if `!args.code` (absent or 0) throws a
-- BAD_USER_INPUT GraphQLError, else throws a BAD_REQUEST GraphQLError
-- whose http status is `args.code || 500`.
def givenCode (code : Option Int) : ResolverOutcome :=
  if jsFalsyInt code then
    .thrownGraphQLError
      { message := "no error code"
        extensions := { code := some ApolloServerErrorCode.BAD_USER_INPUT, http := none }
        originalError := none }
  else
    .thrownGraphQLError
      { message := "error with code from arg"
        extensions :=
          { code := some ApolloServerErrorCode.BAD_REQUEST
            http := some { status := jsOr code 500 } }
        originalError := none }

-- `requestTimeout(time: Int!)`: if `!args.time` throws a BAD_USER_INPUT
-- GraphQLError immediately; else awaits a promise that rejects after
-- `args.time` milliseconds and then throws an INTERNAL_SERVER_ERROR
-- GraphQLError (the `http: { status: 408 }` block is commented out in the
-- source, so no transport status is attached).
def requestTimeout (time : Option Int) : ResolverOutcome :=
  if jsFalsyInt time then
    .thrownGraphQLError
      { message := "no error code"
        extensions := { code := some ApolloServerErrorCode.BAD_USER_INPUT, http := none }
        originalError := none }
  else
    .delayedThrownGraphQLError (time.getD 0)
      { message := "Request timeout"
        extensions := { code := some ApolloServerErrorCode.INTERNAL_SERVER_ERROR, http := none }
        originalError := none }

-- `networkError`: throws, immediately, an INTERNAL_SERVER_ERROR
-- GraphQLError with transport status 408.
def networkError : ResolverOutcome :=
  .thrownGraphQLError
    { message := "Request timeout"
      extensions :=
        { code := some ApolloServerErrorCode.INTERNAL_SERVER_ERROR
          http := some { status := 408 } }
      originalError := none }

-- `other`: returns (not throws) a plain `TypeError`.
def other : ResolverOutcome :=
  .returnedTypeError "not expected type error"

-- `antiPattern`: returns a nominally successful payload whose `errors`
-- field is null where the schema expects `[Int]` and whose body carries
-- placeholder data.
def antiPattern : ResolverOutcome :=
  .returnedPayload { body := { value := "", code := 404 }, errors := none }

-- `gqlError`: throws a GraphQLError with the custom code GQL_ERROR.
def gqlError : ResolverOutcome :=
  .thrownGraphQLError
    { message := "Custom graphql error"
      extensions := { code := some "GQL_ERROR", http := none }
      originalError := none }

-- `nonGqlError`: throws a plain `Error` with no extensions at all.
def nonGqlError : ResolverOutcome :=
  .thrownError "custom error code"

end Query

-- The spec's outcome taxonomy (SimulatedOutcome kinds, section 3): an
-- outcome is a ConformantError when it is a GraphQLError carrying the
-- standard envelope, a NonConformantError when the failure lacks that
-- envelope, a MalformedSuccess when it is a nominally successful payload.
inductive OutcomeKind where
  | ConformantError
  | NonConformantError
  | MalformedSuccess
  deriving Repr, DecidableEq

-- Classification of a resolver outcome by the spec's taxonomy.
def outcomeKind : ResolverOutcome → OutcomeKind
  | .returnedGraphQLError _ => .ConformantError
  | .thrownGraphQLError _ => .ConformantError
  | .delayedThrownGraphQLError _ _ => .ConformantError
  | .returnedTypeError _ => .NonConformantError
  | .thrownError _ => .NonConformantError
  | .returnedPayload _ => .MalformedSuccess

-- The machine-readable code of an outcome, when one exists: only
-- GraphQLError outcomes carry an `extensions.code` field.
def machineCode : ResolverOutcome → Option String
  | .returnedGraphQLError e => e.extensions.code
  | .thrownGraphQLError e => e.extensions.code
  | .delayedThrownGraphQLError _ e => e.extensions.code
  | .returnedTypeError _ => none
  | .thrownError _ => none
  | .returnedPayload _ => none

-- The GraphQLError an outcome carries, when it carries one.
def errorOf : ResolverOutcome → Option GraphQLError
  | .returnedGraphQLError e => some e
  | .thrownGraphQLError e => some e
  | .delayedThrownGraphQLError _ e => some e
  | .returnedTypeError _ => none
  | .thrownError _ => none
  | .returnedPayload _ => none

-- Milliseconds of suspension before the outcome is produced: every
-- outcome except a delayed throw is produced immediately.
def resolutionDelay : ResolverOutcome → Int
  | .delayedThrownGraphQLError d _ => d
  | _ => 0

-- Whether the outcome is a successful (non-error) resolution at the
-- transport boundary: only a returned payload is.
def isSuccess : ResolverOutcome → Bool
  | .returnedPayload _ => true
  | _ => false

-- The nine declared operations of the catalog.
inductive Op where
  | notFound
  | authenticationFail
  | givenCode
  | requestTimeout
  | networkError
  | other
  | antiPattern
  | gqlError
  | nonGqlError
  deriving Repr, DecidableEq

-- A single call: an operation with its (optional integer) argument; the
-- argument is ignored by the seven argument-free operations.
def invoke : Op → Option Int → ResolverOutcome
  | .notFound, _ => Query.notFound
  | .authenticationFail, _ => Query.authenticationFail
  | .givenCode, arg => Query.givenCode arg
  | .requestTimeout, arg => Query.requestTimeout arg
  | .networkError, _ => Query.networkError
  | .other, _ => Query.other
  | .antiPattern, _ => Query.antiPattern
  | .gqlError, _ => Query.gqlError
  | .nonGqlError, _ => Query.nonGqlError

-- The server's mutable state across calls.  The source module declares
-- only constants and the resolvers close over no mutable binding, so the
-- state is trivial: nothing observable persists between calls.
def ServerState : Type := Unit

-- One request against the server: the state is threaded through
-- unchanged and the outcome is that of the single call.
def step (s : ServerState) (c : Op × Option Int) : ServerState × ResolverOutcome :=
  (s, invoke c.1 c.2)

-- A sequence of requests, returning the outcomes in order.
def runTrace (s : ServerState) : List (Op × Option Int) → List ResolverOutcome
  | [] => []
  | c :: cs => (step s c).2 :: runTrace (step s c).1 cs

/-- Claim C1: each of the nine operations, invoked with any arguments,
yields exactly the outcome kind the catalog assigns to it — ConformantError
for notFound, authenticationFail, givenCode, requestTimeout, networkError
and gqlError; NonConformantError for other and nonGqlError;
MalformedSuccess for antiPattern — and never any other kind. -/
theorem all_ops_yield_assigned_kind :
    outcomeKind Query.notFound = .ConformantError ∧
    outcomeKind Query.authenticationFail = .ConformantError ∧
    (∀ code : Option Int, outcomeKind (Query.givenCode code) = .ConformantError) ∧
    (∀ time : Option Int, outcomeKind (Query.requestTimeout time) = .ConformantError) ∧
    outcomeKind Query.networkError = .ConformantError ∧
    outcomeKind Query.gqlError = .ConformantError ∧
    outcomeKind Query.other = .NonConformantError ∧
    outcomeKind Query.nonGqlError = .NonConformantError ∧
    outcomeKind Query.antiPattern = .MalformedSuccess := by
  refine ⟨rfl, rfl, ?_, ?_, rfl, rfl, rfl, rfl, rfl⟩
  · intro arg
    unfold Query.givenCode
    split <;> rfl
  · intro arg
    unfold Query.requestTimeout
    split <;> rfl

/-- Claim C2: givenCode with the code argument absent, and givenCode with
code 0 (falsy), both take the validation branch and yield a ConformantError
with code BAD_USER_INPUT and no transport status — not BAD_REQUEST. -/
theorem givenCode_falsy_is_bad_user_input :
    Query.givenCode none =
      .thrownGraphQLError
        { message := "no error code"
          extensions := { code := some ApolloServerErrorCode.BAD_USER_INPUT, http := none }
          originalError := none } ∧
    Query.givenCode (some 0) =
      .thrownGraphQLError
        { message := "no error code"
          extensions := { code := some ApolloServerErrorCode.BAD_USER_INPUT, http := none }
          originalError := none } ∧
    machineCode (Query.givenCode (some 0)) = some "BAD_USER_INPUT" ∧
    outcomeKind (Query.givenCode (some 0)) = .ConformantError :=
  ⟨rfl, rfl, rfl, rfl⟩

/-- Claim C3: for every truthy (non-zero) integer code, givenCode yields a
thrown ConformantError with code BAD_REQUEST whose transport-level HTTP
status equals the given code. -/
theorem givenCode_truthy_is_bad_request (c : Int) (h : c ≠ 0) :
    Query.givenCode (some c) =
      .thrownGraphQLError
        { message := "error with code from arg"
          extensions :=
            { code := some ApolloServerErrorCode.BAD_REQUEST
              http := some { status := c } }
          originalError := none } := by
  unfold Query.givenCode
  have hf : jsFalsyInt (some c) = false := by
    simp [jsFalsyInt, h]
  rw [hf]
  simp only [Bool.false_eq_true, if_false]
  have ho : jsOr (some c) 500 = c := by
    simp [jsOr, h]
  rw [ho]

/-- Witness for C3 at the spec's concrete input: code 500 yields
BAD_REQUEST with transport status 500. -/
theorem givenCode_truthy_is_bad_request_witness :
    Query.givenCode (some 500) =
      .thrownGraphQLError
        { message := "error with code from arg"
          extensions :=
            { code := some ApolloServerErrorCode.BAD_REQUEST
              http := some { status := 500 } }
          originalError := none } :=
  givenCode_truthy_is_bad_request 500 (by decide)

/-- Claim C4: the status-defaulting fallback `args.code || 500` in
givenCode is dead code.  The BAD_REQUEST branch runs only when the code
argument is truthy (the absent argument is falsy, as the final conjunct
records), and on every such argument the fallback expression evaluates to
the argument itself, so the transport status is always exactly the given
code and the default 500 is never produced by the fallback. -/
theorem givenCode_fallback_is_dead (n : Int) (h : jsFalsyInt (some n) = false) :
    jsOr (some n) 500 = n ∧
    Query.givenCode (some n) =
      .thrownGraphQLError
        { message := "error with code from arg"
          extensions :=
            { code := some ApolloServerErrorCode.BAD_REQUEST
              http := some { status := n } }
          originalError := none } ∧
    jsFalsyInt none = true := by
  have hn : n ≠ 0 := by
    intro h0
    rw [h0] at h
    simp [jsFalsyInt] at h
  refine ⟨by simp [jsOr, hn], ?_, rfl⟩
  unfold Query.givenCode
  rw [h]
  simp only [Bool.false_eq_true, if_false]
  have ho : jsOr (some n) 500 = n := by simp [jsOr, hn]
  rw [ho]

/-- Witness for C4 at a concrete truthy code: with code 42 the fallback
evaluates to 42 and the thrown error carries status 42. -/
theorem givenCode_fallback_is_dead_witness :
    jsOr (some 42) 500 = 42 ∧
    Query.givenCode (some 42) =
      .thrownGraphQLError
        { message := "error with code from arg"
          extensions :=
            { code := some ApolloServerErrorCode.BAD_REQUEST
              http := some { status := 42 } }
          originalError := none } ∧
    jsFalsyInt none = true :=
  givenCode_fallback_is_dead 42 (by decide)

/-- Claim C5: requestTimeout with the time argument omitted yields a
ConformantError with code BAD_USER_INPUT immediately (zero delay); with a
positive time t it suspends for at least t milliseconds and then fails
with a ConformantError with code INTERNAL_SERVER_ERROR; and for no
argument value does it produce a successful resolution. -/
theorem requestTimeout_spec (t : Int) (h : 0 < t) :
    Query.requestTimeout none =
      .thrownGraphQLError
        { message := "no error code"
          extensions := { code := some ApolloServerErrorCode.BAD_USER_INPUT, http := none }
          originalError := none } ∧
    resolutionDelay (Query.requestTimeout none) = 0 ∧
    Query.requestTimeout (some t) =
      .delayedThrownGraphQLError t
        { message := "Request timeout"
          extensions := { code := some ApolloServerErrorCode.INTERNAL_SERVER_ERROR, http := none }
          originalError := none } ∧
    t ≤ resolutionDelay (Query.requestTimeout (some t)) ∧
    (∀ arg : Option Int, isSuccess (Query.requestTimeout arg) = false) := by
  have hf : jsFalsyInt (some t) = false := by
    simp only [jsFalsyInt, beq_eq_false_iff_ne, ne_eq]
    omega
  have ht : Query.requestTimeout (some t) =
      .delayedThrownGraphQLError t
        { message := "Request timeout"
          extensions := { code := some ApolloServerErrorCode.INTERNAL_SERVER_ERROR, http := none }
          originalError := none } := by
    unfold Query.requestTimeout
    rw [hf]
    rfl
  refine ⟨rfl, rfl, ht, ?_, ?_⟩
  · rw [ht]
    exact le_refl t
  · intro arg
    unfold Query.requestTimeout
    split <;> rfl

/-- Witness for C5 at the spec's concrete input: time 50 milliseconds. -/
theorem requestTimeout_spec_witness :
    Query.requestTimeout none =
      .thrownGraphQLError
        { message := "no error code"
          extensions := { code := some ApolloServerErrorCode.BAD_USER_INPUT, http := none }
          originalError := none } ∧
    resolutionDelay (Query.requestTimeout none) = 0 ∧
    Query.requestTimeout (some 50) =
      .delayedThrownGraphQLError 50
        { message := "Request timeout"
          extensions := { code := some ApolloServerErrorCode.INTERNAL_SERVER_ERROR, http := none }
          originalError := none } ∧
    (50 : Int) ≤ resolutionDelay (Query.requestTimeout (some 50)) ∧
    (∀ arg : Option Int, isSuccess (Query.requestTimeout arg) = false) :=
  requestTimeout_spec 50 (by decide)

/-- Claim C6: networkError always and immediately (zero delay) fails with
a ConformantError with code INTERNAL_SERVER_ERROR and transport-level
HTTP status 408. -/
theorem networkError_spec :
    Query.networkError =
      .thrownGraphQLError
        { message := "Request timeout"
          extensions :=
            { code := some ApolloServerErrorCode.INTERNAL_SERVER_ERROR
              http := some { status := 408 } }
          originalError := none } ∧
    outcomeKind Query.networkError = .ConformantError ∧
    resolutionDelay Query.networkError = 0 :=
  ⟨rfl, rfl, rfl⟩

/-- Claim C7: antiPattern always returns a MalformedSuccess payload whose
top-level errors field is null (where the schema declares a list of
integers) and whose body has value the empty string and code 404. -/
theorem antiPattern_spec :
    Query.antiPattern =
      .returnedPayload { body := { value := "", code := 404 }, errors := none } ∧
    outcomeKind Query.antiPattern = .MalformedSuccess ∧
    isSuccess Query.antiPattern = true :=
  ⟨rfl, rfl, rfl⟩

/-- Claim C8: other and nonGqlError each yield a failure with no
machine-readable code, while every ConformantError-producing operation of
the catalog (notFound, authenticationFail, givenCode and requestTimeout on
every argument, networkError, gqlError) carries one. -/
theorem other_nonGqlError_lack_machine_code :
    machineCode Query.other = none ∧
    machineCode Query.nonGqlError = none ∧
    machineCode Query.notFound = some "NOT_FOUND" ∧
    machineCode Query.authenticationFail = some "FORBIDDEN" ∧
    (∀ code : Option Int, (machineCode (Query.givenCode code)).isSome = true) ∧
    (∀ time : Option Int, (machineCode (Query.requestTimeout time)).isSome = true) ∧
    machineCode Query.networkError = some ApolloServerErrorCode.INTERNAL_SERVER_ERROR ∧
    machineCode Query.gqlError = some "GQL_ERROR" := by
  refine ⟨rfl, rfl, rfl, rfl, ?_, ?_, rfl, rfl⟩
  · intro arg
    unfold Query.givenCode
    split <;> rfl
  · intro arg
    unfold Query.requestTimeout
    split <;> rfl

-- Traces distribute over concatenation: the state threading adds nothing,
-- so the outcomes of a suffix do not depend on the calls before it.
theorem runTrace_append (s : ServerState) (l1 l2 : List (Op × Option Int)) :
    runTrace s (l1 ++ l2) = runTrace s l1 ++ runTrace s l2 := by
  induction l1 with
  | nil => rfl
  | cons a l ih => simp [runTrace, step, ih]

/-- Claim C9: every operation is deterministic and stateless — the outcome
of a call is a function of the operation and argument alone, unaffected by
any preceding calls, and invoking the same call twice in succession yields
two identical outcomes. -/
theorem calls_deterministic_stateless
    (s : ServerState) (pre : List (Op × Option Int)) (c : Op × Option Int) :
    runTrace s (pre ++ [c]) = runTrace s pre ++ [invoke c.1 c.2] ∧
    runTrace s (pre ++ [c, c]) = runTrace s pre ++ [invoke c.1 c.2, invoke c.1 c.2] := by
  constructor
  · rw [runTrace_append]
    rfl
  · rw [runTrace_append]
    rfl

/-- Claim C10: the GraphQLError of networkError and the one thrown by
requestTimeout's delayed branch agree on every field — message (both
"Request timeout"), machine code (both INTERNAL_SERVER_ERROR) and wrapped
original error — except the http extension: networkError carries transport
status 408 where requestTimeout's error carries none. -/
theorem requestTimeout_networkError_agree (t : Int) (h : 0 < t) :
    (errorOf (Query.requestTimeout (some t))).map GraphQLError.message =
      some "Request timeout" ∧
    (errorOf Query.networkError).map GraphQLError.message = some "Request timeout" ∧
    machineCode (Query.requestTimeout (some t)) =
      some ApolloServerErrorCode.INTERNAL_SERVER_ERROR ∧
    machineCode Query.networkError = some ApolloServerErrorCode.INTERNAL_SERVER_ERROR ∧
    (errorOf (Query.requestTimeout (some t))).map GraphQLError.originalError =
      (errorOf Query.networkError).map GraphQLError.originalError ∧
    (errorOf (Query.requestTimeout (some t))).map (fun e => e.extensions.http) =
      some none ∧
    (errorOf Query.networkError).map (fun e => e.extensions.http) =
      some (some { status := 408 }) := by
  have hf : jsFalsyInt (some t) = false := by
    simp only [jsFalsyInt, beq_eq_false_iff_ne, ne_eq]
    omega
  have ht : Query.requestTimeout (some t) =
      .delayedThrownGraphQLError t
        { message := "Request timeout"
          extensions := { code := some ApolloServerErrorCode.INTERNAL_SERVER_ERROR, http := none }
          originalError := none } := by
    unfold Query.requestTimeout
    rw [hf]
    rfl
  rw [ht]
  exact ⟨rfl, rfl, rfl, rfl, rfl, rfl, rfl⟩

/-- Witness for C10 at time 50: both errors agree on message, code and
original error; only the http status distinguishes them. -/
theorem requestTimeout_networkError_agree_witness :
    (errorOf (Query.requestTimeout (some 50))).map GraphQLError.message =
      some "Request timeout" ∧
    (errorOf Query.networkError).map GraphQLError.message = some "Request timeout" ∧
    machineCode (Query.requestTimeout (some 50)) =
      some ApolloServerErrorCode.INTERNAL_SERVER_ERROR ∧
    machineCode Query.networkError = some ApolloServerErrorCode.INTERNAL_SERVER_ERROR ∧
    (errorOf (Query.requestTimeout (some 50))).map GraphQLError.originalError =
      (errorOf Query.networkError).map GraphQLError.originalError ∧
    (errorOf (Query.requestTimeout (some 50))).map (fun e => e.extensions.http) =
      some none ∧
    (errorOf Query.networkError).map (fun e => e.extensions.http) =
      some (some { status := 408 }) :=
  requestTimeout_networkError_agree 50 (by decide)
